import Mathlib

/-!
Shallow embedding of `app.py` (Patient Data API).

JSON records are modelled as Lean structures whose fields are `Option`-valued:
`none` models an absent key, mirroring Python's `dict.get(key)` / `dict.get(key, default)`.
Python truthiness on the values that reach an `if` in the source is modelled
explicitly (`None` and `""` are falsy for strings; `None` and the empty dict are
falsy for a looked-up patient record).  Each HTTP handler becomes a pure
function of the loaded dataset; raising `HTTPException` becomes the `error`
constructor of `ApiResult`.
-/

namespace PatientAPI

/-- Model of the `personalInformation` sub-object: the two fields the code reads. -/
structure PersonalInformation where
  firstName : Option String
  lastName : Option String
  deriving DecidableEq

/-- An appointment object is opaque to the code; modelled as an opaque token. -/
abbrev Appt := String

/-- Model of the `appointments` mapping with its three recognized keys
(`upcoming`, `recent`, `past`); an absent key is `none`. -/
structure Appointments where
  upcoming : Option (List Appt)
  recent : Option (List Appt)
  past : Option (List Appt)
  deriving DecidableEq

/-- A test-result entry: the code only inspects its `testType` key; the rest of
the entry is an opaque payload. -/
structure TestResult where
  testType : Option String
  payload : String
  deriving DecidableEq

/-- An opaque JSON object (used for `medicalHistory` and `insurance`), modelled
as an association list; the empty object is `[]`. -/
abbrev JsonObj := List (String × String)

/-- One patient record: every key the code reads, each possibly absent. -/
structure Patient where
  patientId : Option String
  personalInformation : Option PersonalInformation
  appointments : Option Appointments
  testResults : Option (List TestResult)
  medicalHistory : Option JsonObj
  insurance : Option JsonObj
  careProviders : Option (List String)
  procedures : Option (List String)
  deriving DecidableEq

/-- The empty JSON object `{}` viewed as a patient record (all keys absent). -/
def emptyPatient : Patient :=
  { patientId := none, personalInformation := none, appointments := none,
    testResults := none, medicalHistory := none, insurance := none,
    careProviders := none, procedures := none }

/-- The empty `appointments` mapping `{}` (all three keys absent). -/
def emptyAppointments : Appointments :=
  { upcoming := none, recent := none, past := none }

/-- The top-level JSON document: `patient_data`; the `patients` key may be absent. -/
structure PatientData where
  patients : Option (List Patient)
  deriving DecidableEq

/-- `patient_data.get("patients", [])`. -/
def PatientData.getPatients (d : PatientData) : List Patient :=
  d.patients.getD []

/-- Outcome of the startup read of `dummy_patient_data.json`: a successful
parse, a `FileNotFoundError`, or a `json.JSONDecodeError`. -/
inductive LoadOutcome where
  | success (document : PatientData)
  | fileNotFound
  | jsonDecodeError
  deriving DecidableEq

/-- The module-level `try/except` around `json.load`: on either failure the
module falls back to `{"patients": []}`. -/
def loadPatientData : LoadOutcome → PatientData
  | .success document => document
  | .fileNotFound => { patients := some [] }
  | .jsonDecodeError => { patients := some [] }

/-- The `for patient in ...: if patient.get("patientId") == patient_id` loop.
Note `patient.get("patientId")` is `None` when the key is absent, and `None`
never equals the string `patient_id`. -/
def findLoop (patient_id : String) : List Patient → Option Patient
  | [] => none
  | patient :: rest =>
      if patient.patientId = some patient_id then some patient
      else findLoop patient_id rest

/-- `find_patient_by_id` from `app.py`. -/
def find_patient_by_id (d : PatientData) (patient_id : String) : Option Patient :=
  findLoop patient_id d.getPatients

/-- Python truthiness of `patient` in `if not patient:`: `None` is falsy and so
is the empty dict `{}`. -/
def patientFalsy : Option Patient → Bool
  | none => true
  | some patient => patient = emptyPatient

/-- Python truthiness of an `Optional[str]` query parameter: `None` and `""`
are falsy. -/
def strFalsy : Option String → Bool
  | none => true
  | some s => s = ""

/-- Python `str.lower()` (character-wise lowercasing). -/
def pyLower (s : String) : String :=
  String.mk (s.data.map Char.toLower)

/-- Python `needle in haystack` on character lists: some suffix of the haystack
starts with the needle (the empty needle is contained in everything). -/
def listContainsSub (needle : List Char) : List Char → Bool
  | [] => needle.isEmpty
  | c :: rest => needle.isPrefixOf (c :: rest) || listContainsSub needle rest

/-- Python `needle in haystack` for strings. -/
def pyContains (haystack needle : String) : Bool :=
  listContainsSub needle.data haystack.data

/-- `p.get("personalInformation", {}).get("firstName", "")`. -/
def Patient.getFirstName (p : Patient) : String :=
  ((p.personalInformation.getD { firstName := none, lastName := none }).firstName).getD ""

/-- `p.get("personalInformation", {}).get("lastName", "")`. -/
def Patient.getLastName (p : Patient) : String :=
  ((p.personalInformation.getD { firstName := none, lastName := none }).lastName).getD ""

/-- The 404 detail string `f"Patient with ID {patient_id} not found"`. -/
def notFoundDetail (patient_id : String) : String :=
  "Patient with ID " ++ patient_id ++ " not found"

/-- Result of a handler: a JSON payload, or a raised `HTTPException` with a
status code and a detail message. -/
inductive ApiResult (α : Type) where
  | ok (value : α)
  | error (statusCode : Nat) (detail : String)
  deriving DecidableEq

/-- Response shape `{success, count, patients}`. -/
structure PatientsListResponse where
  success : Bool
  count : Nat
  patients : List Patient
  deriving DecidableEq

/-- Handler `get_all_patients` (`GET /api/patients`). -/
def get_all_patients (d : PatientData) : PatientsListResponse :=
  { success := true,
    count := d.getPatients.length,
    patients := d.getPatients }

/-- Response shape `{success, patient}`. -/
structure PatientResponse where
  success : Bool
  patient : Patient
  deriving DecidableEq

/-- Handler `get_patient_by_id` (`GET /api/patients/{patient_id}`). -/
def get_patient_by_id (d : PatientData) (patient_id : String) : ApiResult PatientResponse :=
  let patient := find_patient_by_id d patient_id
  if patientFalsy patient then .error 404 (notFoundDetail patient_id)
  else .ok { success := true, patient := patient.getD emptyPatient }

/-- Handler `search_patients_by_name` (`GET /api/patients/search/name`). -/
def search_patients_by_name (d : PatientData)
    (firstName lastName : Option String) : PatientsListResponse :=
  let results := d.getPatients
  let results :=
    if strFalsy firstName then results
    else results.filter fun p =>
      pyContains (pyLower p.getFirstName) (pyLower (firstName.getD ""))
  let results :=
    if strFalsy lastName then results
    else results.filter fun p =>
      pyContains (pyLower p.getLastName) (pyLower (lastName.getD ""))
  { success := true, count := results.length, patients := results }

/-- `appointments.get(key, [])` for the keys the code can pass. -/
def Appointments.getBucket (a : Appointments) (key : String) : List Appt :=
  if key = "upcoming" then a.upcoming.getD []
  else if key = "recent" then a.recent.getD []
  else if key = "past" then a.past.getD []
  else []

/-- Response of the appointments handler: either `{success, type, appointments}`
with one bucket list, or `{success, appointments}` with the whole mapping. -/
inductive AppointmentsResponse where
  | bucket (success : Bool) (type : String) (appointments : List Appt)
  | full (success : Bool) (appointments : Appointments)
  deriving DecidableEq

/-- Handler `get_patient_appointments`
(`GET /api/patients/{patient_id}/appointments`). -/
def get_patient_appointments (d : PatientData) (patient_id : String)
    (type : Option String) : ApiResult AppointmentsResponse :=
  let patient := find_patient_by_id d patient_id
  if patientFalsy patient then .error 404 (notFoundDetail patient_id)
  else
    let appointments := (patient.getD emptyPatient).appointments.getD emptyAppointments
    if !strFalsy type && ["upcoming", "recent", "past"].contains (type.getD "") then
      .ok (.bucket true (type.getD "") (appointments.getBucket (type.getD "")))
    else
      .ok (.full true appointments)

/-- Response shape `{success, count, testResults}`. -/
structure TestResultsResponse where
  success : Bool
  count : Nat
  testResults : List TestResult
  deriving DecidableEq

/-- Handler `get_patient_test_results`
(`GET /api/patients/{patient_id}/test-results`). -/
def get_patient_test_results (d : PatientData) (patient_id : String)
    (testType : Option String) : ApiResult TestResultsResponse :=
  let patient := find_patient_by_id d patient_id
  if patientFalsy patient then .error 404 (notFoundDetail patient_id)
  else
    let results := (patient.getD emptyPatient).testResults.getD []
    let results :=
      if strFalsy testType then results
      else results.filter fun test => test.testType = some (testType.getD "")
    .ok { success := true, count := results.length, testResults := results }

/-- Response shape `{success, medicalHistory}`. -/
structure MedicalHistoryResponse where
  success : Bool
  medicalHistory : JsonObj
  deriving DecidableEq

/-- Handler `get_patient_medical_history`
(`GET /api/patients/{patient_id}/medical-history`). -/
def get_patient_medical_history (d : PatientData) (patient_id : String) :
    ApiResult MedicalHistoryResponse :=
  let patient := find_patient_by_id d patient_id
  if patientFalsy patient then .error 404 (notFoundDetail patient_id)
  else .ok { success := true,
             medicalHistory := (patient.getD emptyPatient).medicalHistory.getD [] }

/-- Response shape `{success, insurance}`. -/
structure InsuranceResponse where
  success : Bool
  insurance : JsonObj
  deriving DecidableEq

/-- Handler `get_patient_insurance` (`GET /api/patients/{patient_id}/insurance`). -/
def get_patient_insurance (d : PatientData) (patient_id : String) :
    ApiResult InsuranceResponse :=
  let patient := find_patient_by_id d patient_id
  if patientFalsy patient then .error 404 (notFoundDetail patient_id)
  else .ok { success := true,
             insurance := (patient.getD emptyPatient).insurance.getD [] }

/-- Response shape `{success, careProviders}`. -/
structure CareProvidersResponse where
  success : Bool
  careProviders : List String
  deriving DecidableEq

/-- Handler `get_patient_care_providers`
(`GET /api/patients/{patient_id}/care-providers`). -/
def get_patient_care_providers (d : PatientData) (patient_id : String) :
    ApiResult CareProvidersResponse :=
  let patient := find_patient_by_id d patient_id
  if patientFalsy patient then .error 404 (notFoundDetail patient_id)
  else .ok { success := true,
             careProviders := (patient.getD emptyPatient).careProviders.getD [] }

/-- Response shape `{success, procedures}`. -/
structure ProceduresResponse where
  success : Bool
  procedures : List String
  deriving DecidableEq

/-- Handler `get_patient_procedures`
(`GET /api/patients/{patient_id}/procedures`). -/
def get_patient_procedures (d : PatientData) (patient_id : String) :
    ApiResult ProceduresResponse :=
  let patient := find_patient_by_id d patient_id
  if patientFalsy patient then .error 404 (notFoundDetail patient_id)
  else .ok { success := true,
             procedures := (patient.getD emptyPatient).procedures.getD [] }

/-! ### Spec-side predicates and payload abstractions -/

/-- Formalisation of the spec's name-matching predicate: an absent filter
imposes no restriction; a present filter requires a case-insensitive substring
match against the field value. -/
def specNameFilterMatch (query : Option String) (fieldValue : String) : Bool :=
  match query with
  | none => true
  | some q => pyContains (pyLower fieldValue) (pyLower q)

/-- Formalisation of the spec's search predicate: both name filters combined
with AND. -/
def specSearchMatch (firstName lastName : Option String) (p : Patient) : Bool :=
  specNameFilterMatch firstName p.getFirstName
    && specNameFilterMatch lastName p.getLastName

/-- The appointments payload computed from a resolved record (the body of
`get_patient_appointments` after the 404 check). -/
def appointmentsPayloadOf (p : Patient) (type : Option String) : AppointmentsResponse :=
  let appointments := p.appointments.getD emptyAppointments
  if !strFalsy type && ["upcoming", "recent", "past"].contains (type.getD "") then
    .bucket true (type.getD "") (appointments.getBucket (type.getD ""))
  else
    .full true appointments

/-- The test-results payload computed from a resolved record (the body of
`get_patient_test_results` after the 404 check). -/
def testResultsPayloadOf (p : Patient) (testType : Option String) : TestResultsResponse :=
  let results := p.testResults.getD []
  let results :=
    if strFalsy testType then results
    else results.filter fun test => test.testType = some (testType.getD "")
  { success := true, count := results.length, testResults := results }

/-! ### Concrete sample data for witnesses and counterexamples -/

/-- Sample patient record used to instantiate hypotheses of claim theorems. -/
def wPatient1 : Patient :=
  { patientId := some "P1",
    personalInformation := some { firstName := some "Anna", lastName := some "Lee" },
    appointments := none, testResults := none, medicalHistory := none,
    insurance := none, careProviders := none, procedures := none }

/-- Sample one-patient dataset. -/
def wData : PatientData := { patients := some [wPatient1] }

/-- A record carrying only an id, every sub-resource key absent. -/
def wPatientBare : Patient :=
  { patientId := some "P9", personalInformation := none,
    appointments := none, testResults := none, medicalHistory := none,
    insurance := none, careProviders := none, procedures := none }

/-- Dataset holding only the bare record. -/
def wDataBare : PatientData := { patients := some [wPatientBare] }

/-- A test-result entry with a nonempty `testType`. -/
def cexTest : TestResult := { testType := some "Laboratory", payload := "cbc" }

/-- A patient carrying one test result. -/
def cexPatient : Patient :=
  { patientId := some "P1", personalInformation := none,
    appointments := none, testResults := some [cexTest], medicalHistory := none,
    insurance := none, careProviders := none, procedures := none }

/-- Dataset holding only `cexPatient`. -/
def cexData : PatientData := { patients := some [cexPatient] }

end PatientAPI

namespace PatientAPI

/-! ### Helper lemmas about the lookup helper -/

/-- The linear scan is `List.find?` with the id-equality predicate. -/
lemma findLoop_eq_find (patient_id : String) (l : List Patient) :
    findLoop patient_id l = l.find? fun p => decide (p.patientId = some patient_id) := by
  induction l with
  | nil => rfl
  | cons p rest ih =>
      by_cases h : p.patientId = some patient_id
      · simp [findLoop, h, List.find?_cons_of_pos]
      · rw [findLoop, if_neg h, ih, List.find?_cons_of_neg]
        simp [h]

/-- A record returned by the scan has a `patientId` key equal to the query. -/
lemma find_patient_some_id (d : PatientData) (pid : String) (p : Patient)
    (h : find_patient_by_id d pid = some p) : p.patientId = some pid := by
  rw [find_patient_by_id, findLoop_eq_find] at h
  simpa using List.find?_some h

/-- A found record is a nonempty dict, hence truthy. -/
lemma patientFalsy_some (p : Patient) (pid : String) (hid : p.patientId = some pid) :
    patientFalsy (some p) = false := by
  have hne : p ≠ emptyPatient := by
    intro he
    rw [he] at hid
    simp [emptyPatient] at hid
  simp [patientFalsy, hne]

/-- On the result of the scan, Python truthiness coincides with `Option.isNone`. -/
lemma patientFalsy_find (d : PatientData) (pid : String) :
    patientFalsy (find_patient_by_id d pid) = (find_patient_by_id d pid).isNone := by
  cases h : find_patient_by_id d pid with
  | none => rfl
  | some p => simp [patientFalsy_some p pid (find_patient_some_id d pid p h)]

/-- `get_patient_by_id` on a successful lookup. -/
lemma get_patient_by_id_eq_some (d : PatientData) (pid : String) (p : Patient)
    (h : find_patient_by_id d pid = some p) :
    get_patient_by_id d pid = .ok { success := true, patient := p } := by
  rw [get_patient_by_id]
  simp [h, patientFalsy_some p pid (find_patient_some_id d pid p h)]

/-- `get_patient_by_id` on a failed lookup. -/
lemma get_patient_by_id_eq_none (d : PatientData) (pid : String)
    (h : find_patient_by_id d pid = none) :
    get_patient_by_id d pid = .error 404 (notFoundDetail pid) := by
  rw [get_patient_by_id]
  simp [h, patientFalsy]

/-- If a member matches and every match equals it, the scan returns it. -/
lemma findLoop_mem_unique (pid : String) (P : Patient) :
    ∀ l : List Patient, P ∈ l → P.patientId = some pid →
      (∀ Q ∈ l, Q.patientId = some pid → Q = P) → findLoop pid l = some P := by
  intro l
  induction l with
  | nil => intro h; simp at h
  | cons Q rest ih =>
      intro hmem hid huniq
      by_cases hQ : Q.patientId = some pid
      · have hQP : Q = P := huniq Q (List.mem_cons_self _ _) hQ
        subst hQP
        rw [findLoop, if_pos hQ]
      · have hPmem : P ∈ rest := by
          rcases List.mem_cons.mp hmem with h | h
          · exact absurd (h ▸ hid) hQ
          · exact h
        rw [findLoop, if_neg hQ]
        exact ih hPmem hid fun R hR hRid => huniq R (List.mem_cons_of_mem _ hR) hRid

/-- If no member matches, the scan returns `None`. -/
lemma findLoop_eq_none (pid : String) :
    ∀ l : List Patient, (∀ P ∈ l, P.patientId ≠ some pid) → findLoop pid l = none := by
  intro l
  induction l with
  | nil => intro _; rfl
  | cons Q rest ih =>
      intro habs
      rw [findLoop, if_neg (habs Q (List.mem_cons_self _ _))]
      exact ih fun R hR => habs R (List.mem_cons_of_mem _ hR)

/-! ### Claim theorems: lookup -/

/-- C10: `find_patient_by_id` returns either `None` or the first record in
dataset order whose `patientId` key is present and equal to the query; a record
lacking a `patientId` key is never returned. -/
theorem find_patient_by_id_first_match (d : PatientData) (patient_id : String) :
    find_patient_by_id d patient_id
      = d.getPatients.find? (fun p => decide (p.patientId = some patient_id))
    ∧ ∀ p, find_patient_by_id d patient_id = some p → p.patientId = some patient_id :=
  ⟨findLoop_eq_find patient_id d.getPatients,
   fun p h => find_patient_some_id d patient_id p h⟩

/-- C1: for a patient `P` of the dataset whose `patientId` is unique in it,
`GetByID(P.patientId)` returns exactly `P` (identity round-trip). -/
theorem get_patient_by_id_roundtrip (d : PatientData) (P : Patient) (pid : String)
    (hmem : P ∈ d.getPatients) (hid : P.patientId = some pid)
    (huniq : ∀ Q ∈ d.getPatients, Q.patientId = some pid → Q = P) :
    get_patient_by_id d pid = .ok { success := true, patient := P } :=
  get_patient_by_id_eq_some d pid P
    (findLoop_mem_unique pid P d.getPatients hmem hid huniq)

/-- Witness for C1 on the sample dataset. -/
theorem get_patient_by_id_roundtrip_witness :
    wPatient1 ∈ wData.getPatients
    ∧ get_patient_by_id wData "P1" = .ok { success := true, patient := wPatient1 } :=
  ⟨by decide,
   get_patient_by_id_roundtrip wData wPatient1 "P1" (by decide) (by decide) (by decide)⟩

/-- C2: for a query id matching no record, `GetByID` fails with status 404 and
detail `Patient with ID {x} not found` (the id embedded), and in no other way. -/
theorem get_patient_by_id_not_found (d : PatientData) (x : String)
    (habs : ∀ P ∈ d.getPatients, P.patientId ≠ some x) :
    get_patient_by_id d x = .error 404 ("Patient with ID " ++ x ++ " not found") :=
  get_patient_by_id_eq_none d x (findLoop_eq_none x d.getPatients habs)

/-- Witness for C2 on the sample dataset. -/
theorem get_patient_by_id_not_found_witness :
    (∀ P ∈ wData.getPatients, P.patientId ≠ some "P2")
    ∧ get_patient_by_id wData "P2"
        = .error 404 ("Patient with ID " ++ "P2" ++ " not found") :=
  ⟨by decide, get_patient_by_id_not_found wData "P2" (by decide)⟩

end PatientAPI

namespace PatientAPI

/-! ### Helper lemmas about the name search -/

/-- The empty needle is contained in every haystack. -/
lemma listContainsSub_nil (hay : List Char) : listContainsSub [] hay = true := by
  cases hay <;> rfl

/-- An empty (lowercased) filter string matches every field value. -/
lemma pyContains_empty_needle (hay : String) : pyContains hay (pyLower "") = true :=
  listContainsSub_nil hay.data

/-- One `if truthy then filter` stage of the search equals filtering by the
spec predicate for that filter. -/
lemma applyNameFilter_eq (q : Option String) (g : Patient → String) (l : List Patient) :
    (if strFalsy q then l
     else l.filter fun p => pyContains (pyLower (g p)) (pyLower (q.getD "")))
      = l.filter fun p => specNameFilterMatch q (g p) := by
  match q with
  | none => simp [strFalsy, specNameFilterMatch]
  | some s =>
      by_cases hs : s = ""
      · subst hs
        rw [if_pos (show strFalsy (some "") = true by decide)]
        symm
        rw [List.filter_eq_self]
        intro a _
        exact pyContains_empty_needle (pyLower (g a))
      · simp [strFalsy, hs, specNameFilterMatch]

/-- The search handler filters the dataset by the spec's AND-combined
case-insensitive substring predicate. -/
lemma search_patients_patients_eq (d : PatientData) (firstName lastName : Option String) :
    (search_patients_by_name d firstName lastName).patients
      = d.getPatients.filter (specSearchMatch firstName lastName) := by
  simp only [search_patients_by_name]
  rw [applyNameFilter_eq firstName Patient.getFirstName,
    applyNameFilter_eq lastName Patient.getLastName, List.filter_filter]
  apply List.filter_congr
  intro p _
  simp [specSearchMatch, Bool.and_comm]

/-- Conjoining a predicate on the left refines a filter (sublist). -/
lemma filter_and_sublist {α : Type} (a b : α → Bool) (l : List α) :
    List.Sublist (l.filter fun x => a x && b x) (l.filter b) := by
  rw [← List.filter_filter]
  exact List.filter_sublist _

/-- Conjoining a predicate on the right refines a filter (sublist). -/
lemma filter_and_sublist_left {α : Type} (a b : α → Bool) (l : List α) :
    List.Sublist (l.filter fun x => a x && b x) (l.filter a) := by
  have h : (l.filter fun x => a x && b x) = l.filter fun x => b x && a x :=
    List.filter_congr fun x _ => Bool.and_comm (a x) (b x)
  rw [h, ← List.filter_filter]
  exact List.filter_sublist _

/-! ### Claim theorems: search -/

/-- C3: the search returns exactly the patients matching the AND of the two
case-insensitive substring filters (absent filter unrestricting, absent field
read as the empty string); `count` always equals the length of the returned
list; with no parameters the full dataset is returned with its size. -/
theorem search_patients_by_name_spec (d : PatientData) (firstName lastName : Option String) :
    (search_patients_by_name d firstName lastName).patients
      = d.getPatients.filter (specSearchMatch firstName lastName)
    ∧ (search_patients_by_name d firstName lastName).count
      = (search_patients_by_name d firstName lastName).patients.length
    ∧ search_patients_by_name d none none
      = { success := true, count := d.getPatients.length, patients := d.getPatients } :=
  ⟨search_patients_patients_eq d firstName lastName, rfl, rfl⟩

/-- C9: the search result is an order-preserving subsequence of the dataset,
and adding either filter only shrinks it (sublist monotonicity). -/
theorem search_patients_by_name_sublist (d : PatientData) (firstName lastName : Option String) :
    List.Sublist (search_patients_by_name d firstName lastName).patients d.getPatients
    ∧ List.Sublist (search_patients_by_name d firstName lastName).patients
        (search_patients_by_name d none lastName).patients
    ∧ List.Sublist (search_patients_by_name d firstName lastName).patients
        (search_patients_by_name d firstName none).patients := by
  refine ⟨?_, ?_, ?_⟩
  · rw [search_patients_patients_eq d firstName lastName]
    exact List.filter_sublist _
  · rw [search_patients_patients_eq d firstName lastName,
      search_patients_patients_eq d none lastName]
    exact filter_and_sublist (fun p => specNameFilterMatch firstName p.getFirstName)
      (fun p => specNameFilterMatch lastName p.getLastName) d.getPatients
  · rw [search_patients_patients_eq d firstName lastName,
      search_patients_patients_eq d firstName none]
    have h : d.getPatients.filter (specSearchMatch firstName none)
        = d.getPatients.filter fun p => specNameFilterMatch firstName p.getFirstName :=
      List.filter_congr fun p _ => by simp [specSearchMatch, specNameFilterMatch]
    rw [h]
    exact filter_and_sublist_left (fun p => specNameFilterMatch firstName p.getFirstName)
      (fun p => specNameFilterMatch lastName p.getLastName) d.getPatients

end PatientAPI

namespace PatientAPI

/-! ### Handler characterizations through the shared lookup -/

/-- `get_patient_by_id` factors through `find_patient_by_id`. -/
lemma get_patient_by_id_match (d : PatientData) (pid : String) :
    get_patient_by_id d pid
      = match find_patient_by_id d pid with
        | none => .error 404 (notFoundDetail pid)
        | some p => .ok { success := true, patient := p } := by
  cases h : find_patient_by_id d pid with
  | none => exact get_patient_by_id_eq_none d pid h
  | some p => exact get_patient_by_id_eq_some d pid p h

/-- `get_patient_appointments` factors through `find_patient_by_id`. -/
lemma get_patient_appointments_match (d : PatientData) (pid : String) (type : Option String) :
    get_patient_appointments d pid type
      = match find_patient_by_id d pid with
        | none => .error 404 (notFoundDetail pid)
        | some p => .ok (appointmentsPayloadOf p type) := by
  cases h : find_patient_by_id d pid with
  | none => simp [get_patient_appointments, h, patientFalsy]
  | some p =>
      simp [get_patient_appointments, h,
        patientFalsy_some p pid (find_patient_some_id d pid p h), appointmentsPayloadOf,
        apply_ite]
      split <;> tauto

/-- `get_patient_test_results` factors through `find_patient_by_id`. -/
lemma get_patient_test_results_match (d : PatientData) (pid : String) (testType : Option String) :
    get_patient_test_results d pid testType
      = match find_patient_by_id d pid with
        | none => .error 404 (notFoundDetail pid)
        | some p => .ok (testResultsPayloadOf p testType) := by
  cases h : find_patient_by_id d pid with
  | none => simp [get_patient_test_results, h, patientFalsy]
  | some p =>
      simp [get_patient_test_results, h,
        patientFalsy_some p pid (find_patient_some_id d pid p h), testResultsPayloadOf]

/-- `get_patient_medical_history` factors through `find_patient_by_id`. -/
lemma get_patient_medical_history_match (d : PatientData) (pid : String) :
    get_patient_medical_history d pid
      = match find_patient_by_id d pid with
        | none => .error 404 (notFoundDetail pid)
        | some p => .ok { success := true, medicalHistory := p.medicalHistory.getD [] } := by
  cases h : find_patient_by_id d pid with
  | none => simp [get_patient_medical_history, h, patientFalsy]
  | some p =>
      simp [get_patient_medical_history, h,
        patientFalsy_some p pid (find_patient_some_id d pid p h)]

/-- `get_patient_insurance` factors through `find_patient_by_id`. -/
lemma get_patient_insurance_match (d : PatientData) (pid : String) :
    get_patient_insurance d pid
      = match find_patient_by_id d pid with
        | none => .error 404 (notFoundDetail pid)
        | some p => .ok { success := true, insurance := p.insurance.getD [] } := by
  cases h : find_patient_by_id d pid with
  | none => simp [get_patient_insurance, h, patientFalsy]
  | some p =>
      simp [get_patient_insurance, h,
        patientFalsy_some p pid (find_patient_some_id d pid p h)]

/-- `get_patient_care_providers` factors through `find_patient_by_id`. -/
lemma get_patient_care_providers_match (d : PatientData) (pid : String) :
    get_patient_care_providers d pid
      = match find_patient_by_id d pid with
        | none => .error 404 (notFoundDetail pid)
        | some p => .ok { success := true, careProviders := p.careProviders.getD [] } := by
  cases h : find_patient_by_id d pid with
  | none => simp [get_patient_care_providers, h, patientFalsy]
  | some p =>
      simp [get_patient_care_providers, h,
        patientFalsy_some p pid (find_patient_some_id d pid p h)]

/-- `get_patient_procedures` factors through `find_patient_by_id`. -/
lemma get_patient_procedures_match (d : PatientData) (pid : String) :
    get_patient_procedures d pid
      = match find_patient_by_id d pid with
        | none => .error 404 (notFoundDetail pid)
        | some p => .ok { success := true, procedures := p.procedures.getD [] } := by
  cases h : find_patient_by_id d pid with
  | none => simp [get_patient_procedures, h, patientFalsy]
  | some p =>
      simp [get_patient_procedures, h,
        patientFalsy_some p pid (find_patient_some_id d pid p h)]

end PatientAPI

namespace PatientAPI

/-! ### Claim theorems: sub-resources, loader, shared lookup -/

/-- C4: for a patient found in the dataset, a `type` equal to one of
`upcoming`, `recent`, `past` selects exactly that bucket (empty list when the
bucket is absent) along with the `type` field; any other `type`, or an absent
one, yields the whole appointments mapping, never an error. -/
theorem get_patient_appointments_spec (d : PatientData) (pid : String) (p : Patient)
    (t : String) (hfind : find_patient_by_id d pid = some p) :
    ((t = "upcoming" ∨ t = "recent" ∨ t = "past") →
        get_patient_appointments d pid (some t)
          = .ok (.bucket true t ((p.appointments.getD emptyAppointments).getBucket t)))
    ∧ (t ∉ (["upcoming", "recent", "past"] : List String) →
        get_patient_appointments d pid (some t)
          = .ok (.full true (p.appointments.getD emptyAppointments)))
    ∧ get_patient_appointments d pid none
      = .ok (.full true (p.appointments.getD emptyAppointments)) := by
  have hb : ∀ ty, get_patient_appointments d pid ty = .ok (appointmentsPayloadOf p ty) := by
    intro ty
    rw [get_patient_appointments_match d pid ty, hfind]
  refine ⟨fun ht => ?_, fun ht => ?_, ?_⟩
  · rw [hb (some t)]
    rcases ht with h | h | h <;> subst h <;> rfl
  · rw [hb (some t)]
    have hnot : ¬t = "upcoming" ∧ ¬t = "recent" ∧ ¬t = "past" := by simpa using ht
    simp [appointmentsPayloadOf, hnot.1, hnot.2.1, hnot.2.2]
  · rw [hb none]
    rfl

/-- Witness for C4: the `upcoming` bucket of the sample patient. -/
theorem get_patient_appointments_spec_witness :
    find_patient_by_id wData "P1" = some wPatient1
    ∧ get_patient_appointments wData "P1" (some "upcoming")
        = .ok (.bucket true "upcoming"
            ((wPatient1.appointments.getD emptyAppointments).getBucket "upcoming")) :=
  ⟨by decide,
   (get_patient_appointments_spec wData "P1" wPatient1 "upcoming" (by decide)).1
     (Or.inl rfl)⟩

/-- C5 counterexample: with the patient holding one `Laboratory` test result,
the query `testType=""` (a given filter) does not return the entries whose
`testType` equals `""` — the code treats the empty string as no filter and
returns all entries. -/
theorem get_patient_test_results_cex :
    get_patient_test_results cexData "P1" (some "")
      ≠ .ok { success := true,
              count := ((cexPatient.testResults.getD []).filter
                  fun test => test.testType = some "").length,
              testResults := (cexPatient.testResults.getD []).filter
                  fun test => test.testType = some "" } := by
  decide

/-- C5 amended: for a patient found in the dataset, a given non-empty
`testType` returns exactly the entries whose `testType` key equals it
(case-sensitive), with `count` the length of that list; an absent or empty
`testType` returns all entries. -/
theorem get_patient_test_results_amended (d : PatientData) (pid : String) (p : Patient)
    (testType : Option String) (hfind : find_patient_by_id d pid = some p) :
    (∀ t, testType = some t → t ≠ "" →
        get_patient_test_results d pid testType
          = .ok { success := true,
                  count := ((p.testResults.getD []).filter
                      fun test => test.testType = some t).length,
                  testResults := (p.testResults.getD []).filter
                      fun test => test.testType = some t })
    ∧ (testType = none ∨ testType = some "" →
        get_patient_test_results d pid testType
          = .ok { success := true, count := (p.testResults.getD []).length,
                  testResults := p.testResults.getD [] }) := by
  have hb : get_patient_test_results d pid testType = .ok (testResultsPayloadOf p testType) := by
    rw [get_patient_test_results_match d pid testType, hfind]
  constructor
  · intro t ht hne
    subst ht
    rw [hb]
    simp [testResultsPayloadOf, strFalsy, hne]
  · intro h
    rcases h with h | h <;> subst h <;> rw [hb] <;> rfl

/-- Witness for C5 (amended) at the `Laboratory` filter. -/
theorem get_patient_test_results_amended_witness :
    find_patient_by_id cexData "P1" = some cexPatient
    ∧ get_patient_test_results cexData "P1" (some "Laboratory")
        = .ok { success := true,
                count := ((cexPatient.testResults.getD []).filter
                    fun test => test.testType = some "Laboratory").length,
                testResults := (cexPatient.testResults.getD []).filter
                    fun test => test.testType = some "Laboratory" } :=
  ⟨by decide,
   (get_patient_test_results_amended cexData "P1" cexPatient (some "Laboratory")
       (by decide)).1 "Laboratory" rfl (by decide)⟩

/-- C6: on a missing file or malformed content, the loader yields the empty
dataset and the list-all endpoint reports success with zero patients. -/
theorem loader_fallback_empty (o : LoadOutcome)
    (h : o = .fileNotFound ∨ o = .jsonDecodeError) :
    (loadPatientData o).getPatients = []
    ∧ get_all_patients (loadPatientData o)
        = { success := true, count := 0, patients := [] } := by
  rcases h with h | h <;> subst h <;> exact ⟨rfl, rfl⟩

/-- Witness for C6 at the missing-file outcome. -/
theorem loader_fallback_empty_witness :
    (LoadOutcome.fileNotFound = LoadOutcome.fileNotFound
      ∨ LoadOutcome.fileNotFound = LoadOutcome.jsonDecodeError)
    ∧ ((loadPatientData .fileNotFound).getPatients = []
       ∧ get_all_patients (loadPatientData .fileNotFound)
           = { success := true, count := 0, patients := [] }) :=
  ⟨Or.inl rfl, loader_fallback_empty .fileNotFound (Or.inl rfl)⟩

/-- C7: for a patient found in the dataset, every sub-resource accessor maps an
absent field to its empty value (empty mapping or empty list) and succeeds. -/
theorem absent_fields_default_empty (d : PatientData) (pid : String) (p : Patient)
    (hfind : find_patient_by_id d pid = some p) :
    (p.appointments = none →
        get_patient_appointments d pid none = .ok (.full true emptyAppointments))
    ∧ (p.testResults = none →
        get_patient_test_results d pid none
          = .ok { success := true, count := 0, testResults := [] })
    ∧ (p.medicalHistory = none →
        get_patient_medical_history d pid
          = .ok { success := true, medicalHistory := [] })
    ∧ (p.insurance = none →
        get_patient_insurance d pid = .ok { success := true, insurance := [] })
    ∧ (p.careProviders = none →
        get_patient_care_providers d pid
          = .ok { success := true, careProviders := [] })
    ∧ (p.procedures = none →
        get_patient_procedures d pid = .ok { success := true, procedures := [] }) := by
  refine ⟨fun h => ?_, fun h => ?_, fun h => ?_, fun h => ?_, fun h => ?_, fun h => ?_⟩
  · rw [get_patient_appointments_match d pid none, hfind]
    simp [appointmentsPayloadOf, strFalsy, h]
  · rw [get_patient_test_results_match d pid none, hfind]
    simp [testResultsPayloadOf, strFalsy, h]
  · rw [get_patient_medical_history_match d pid, hfind]
    simp [h]
  · rw [get_patient_insurance_match d pid, hfind]
    simp [h]
  · rw [get_patient_care_providers_match d pid, hfind]
    simp [h]
  · rw [get_patient_procedures_match d pid, hfind]
    simp [h]

/-- Witness for C7 on the record with every sub-resource key absent. -/
theorem absent_fields_default_empty_witness :
    find_patient_by_id wDataBare "P9" = some wPatientBare
    ∧ (wPatientBare.medicalHistory = none →
        get_patient_medical_history wDataBare "P9"
          = .ok { success := true, medicalHistory := [] }) :=
  ⟨by decide,
   (absent_fields_default_empty wDataBare "P9" wPatientBare (by decide)).2.2.1⟩

/-- C8: every handler resolves the record through the same linear-scan lookup:
it fails with the identical 404 error exactly when `find_patient_by_id` finds
nothing, and on success computes its payload from the very record that
`GetByID` returns. -/
theorem handlers_lookup_agreement (d : PatientData) (pid : String)
    (type testType : Option String) :
    (get_patient_by_id d pid
       = match find_patient_by_id d pid with
         | none => .error 404 (notFoundDetail pid)
         | some p => .ok { success := true, patient := p })
    ∧ (get_patient_appointments d pid type
       = match find_patient_by_id d pid with
         | none => .error 404 (notFoundDetail pid)
         | some p => .ok (appointmentsPayloadOf p type))
    ∧ (get_patient_test_results d pid testType
       = match find_patient_by_id d pid with
         | none => .error 404 (notFoundDetail pid)
         | some p => .ok (testResultsPayloadOf p testType))
    ∧ (get_patient_medical_history d pid
       = match find_patient_by_id d pid with
         | none => .error 404 (notFoundDetail pid)
         | some p => .ok { success := true, medicalHistory := p.medicalHistory.getD [] })
    ∧ (get_patient_insurance d pid
       = match find_patient_by_id d pid with
         | none => .error 404 (notFoundDetail pid)
         | some p => .ok { success := true, insurance := p.insurance.getD [] })
    ∧ (get_patient_care_providers d pid
       = match find_patient_by_id d pid with
         | none => .error 404 (notFoundDetail pid)
         | some p => .ok { success := true, careProviders := p.careProviders.getD [] })
    ∧ (get_patient_procedures d pid
       = match find_patient_by_id d pid with
         | none => .error 404 (notFoundDetail pid)
         | some p => .ok { success := true, procedures := p.procedures.getD [] }) :=
  ⟨get_patient_by_id_match d pid,
   get_patient_appointments_match d pid type,
   get_patient_test_results_match d pid testType,
   get_patient_medical_history_match d pid,
   get_patient_insurance_match d pid,
   get_patient_care_providers_match d pid,
   get_patient_procedures_match d pid⟩

end PatientAPI
